import Mathlib

/-!
Verification of the defi-yield-risk-analyzer risk-scoring engine and data-collection
pipeline.  Definitions are a shallow embedding of `src/config.py`, `src/database.py`,
`src/risk_calculator.py` and `src/data_collector.py`: machine floats are modelled as
real numbers (stored float values as rationals), SQLAlchemy tables as lists of rows,
the HTTP client as a function from attempt indices to scripted responses, and
`datetime` values as natural-number day counts.
-/

namespace DefiRisk

/-! ## Configuration (`src/config.py`) -/

def MIN_TVL_USD : ℚ := 100000

def MIN_APY : ℚ := 1/2

def MAX_APY : ℚ := 200

def TOP_POOLS_LIMIT : ℕ := 500

def DAYS_OF_HISTORY : ℕ := 90

/-- The `RISK_WEIGHTS` dict of `config.py`: three weights used by
`calculate_composite_risk_score`. -/
structure RiskWeights where
  apy_volatility : ℝ
  tvl_volatility : ℝ
  liquidity : ℝ

noncomputable def RISK_WEIGHTS : RiskWeights :=
  { apy_volatility := 0.3, tvl_volatility := 0.3, liquidity := 0.4 }

/-- The `RISK_LEVELS` dict of `config.py`: (lo, hi) band per level. -/
structure RiskLevels where
  low : ℝ × ℝ
  medium : ℝ × ℝ
  high : ℝ × ℝ

noncomputable def RISK_LEVELS : RiskLevels :=
  { low := (0, 30), medium := (30, 60), high := (60, 100) }

/-! ## Database rows (`src/database.py`) -/

/-- A row of the `pools` table. -/
structure Pool where
  id : ℕ
  pool_id : String
  symbol : String
  chain : String
  project : Option String
  last_updated : ℕ
deriving DecidableEq

/-- A row of the `pool_metrics_daily` table.  Stored float columns are modelled as
rationals (floats are rational); the nullable columns are `Option`. -/
structure PoolMetric where
  pool_id : ℕ
  date : ℕ
  apy : Option ℚ
  apy_base : Option ℚ
  apy_reward : Option ℚ
  tvl_usd : Option ℚ
  il7d : Option ℚ
deriving DecidableEq

/-- A row of the `pool_risk_scores` table (computed values live in ℝ). -/
structure PoolRiskScore where
  pool_id : ℕ
  calculation_date : ℕ
  apy_volatility_30d : ℝ
  tvl_volatility_30d : ℝ
  apy_mean_30d : ℝ
  tvl_mean_30d : ℝ
  liquidity_score : ℝ
  stability_score : ℝ
  composite_risk_score : ℝ

/-! ## Risk calculator (`src/risk_calculator.py`) -/

/-- `np.clip(x, lo, hi)`. -/
noncomputable def npclip (x lo hi : ℝ) : ℝ := min (max x lo) hi

/-- A row of the DataFrame built by `get_pool_metrics_df` (`date`, `apy`, `tvl_usd`). -/
structure DfRow where
  date : ℕ
  apy : Option ℚ
  tvl_usd : Option ℚ
deriving DecidableEq

/-- Result of `calculate_apy_volatility` (the dict with keys `mean`, `std`). -/
structure ApyVol where
  mean : ℝ
  std : ℝ

/-- Result of `calculate_tvl_volatility` (the dict with keys `mean`, `cv`). -/
structure TvlVol where
  mean : ℝ
  cv : ℝ

/-- Mean of a list of stored (rational) float values, computed in ℝ
(`values.mean()`). -/
noncomputable def listMean (xs : List ℚ) : ℝ := ((xs.sum : ℚ) : ℝ) / xs.length

/-- Sample standard deviation with `ddof = 1`, as pandas `.std()` computes it. -/
noncomputable def listSampleStd (xs : List ℚ) : ℝ :=
  Real.sqrt ((xs.map (fun x => ((x : ℝ) - listMean xs) ^ 2)).sum / ((xs.length : ℝ) - 1))

/-- `RiskCalculator.get_pool_metrics_df`: select the pool's metrics not older than
`days` days, ordered by date; `none` when fewer than 7 rows survive. -/
def get_pool_metrics_df (store : List PoolMetric) (pool_id : ℕ) (now : ℕ)
    (days : ℕ := 30) : Option (List DfRow) :=
  let cutoff_date := now - days
  let metrics := (store.filter
      (fun m => decide (m.pool_id = pool_id ∧ cutoff_date ≤ m.date))).insertionSort
      (fun a b => a.date ≤ b.date)
  if metrics.length < 7 then none
  else some (metrics.map (fun m => ⟨m.date, m.apy, m.tvl_usd⟩))

/-- `RiskCalculator.calculate_apy_volatility`. -/
noncomputable def calculate_apy_volatility (df : List DfRow) : ApyVol :=
  let apy_values := df.filterMap (fun r => r.apy)
  if apy_values.length < 2 then { mean := 0, std := 0 }
  else { mean := listMean apy_values, std := listSampleStd apy_values }

/-- `RiskCalculator.calculate_tvl_volatility`. -/
noncomputable def calculate_tvl_volatility (df : List DfRow) : TvlVol :=
  let tvl_values := df.filterMap (fun r => r.tvl_usd)
  if tvl_values.length < 2 then { mean := 0, cv := 0 }
  else
    let mean_tvl := listMean tvl_values
    let std_tvl := listSampleStd tvl_values
    let cv := if mean_tvl > 0 then std_tvl / mean_tvl * 100 else 0
    { mean := mean_tvl, cv := cv }

/-- `RiskCalculator.calculate_liquidity_score`. -/
noncomputable def calculate_liquidity_score (mean_tvl : ℝ) : ℝ :=
  if mean_tvl ≤ 0 then 0
  else
    let log_tvl := Real.logb 10 (max mean_tvl 10000)
    let score := (log_tvl - 4) / (9 - 4) * 100
    npclip score 0 100

/-- `RiskCalculator.calculate_stability_score`. -/
noncomputable def calculate_stability_score (apy_std tvl_cv : ℝ) : ℝ :=
  let apy_component := max 0 (100 - apy_std * 2)
  let tvl_component := max 0 (100 - tvl_cv)
  let stability_score := apy_component * 0.6 + tvl_component * 0.4
  npclip stability_score 0 100

/-- `RiskCalculator.calculate_composite_risk_score`. -/
noncomputable def calculate_composite_risk_score (liquidity_score stability_score : ℝ) : ℝ :=
  let liquidity_risk := 100 - liquidity_score
  let stability_risk := 100 - stability_score
  let composite_risk :=
    stability_risk * (RISK_WEIGHTS.apy_volatility + RISK_WEIGHTS.tvl_volatility) +
      liquidity_risk * RISK_WEIGHTS.liquidity
  npclip composite_risk 0 100

/-- `RiskCalculator.calculate_risk_for_pool`. -/
noncomputable def calculate_risk_for_pool (store : List PoolMetric) (pool : Pool)
    (now : ℕ) : Option PoolRiskScore :=
  match get_pool_metrics_df store pool.id now 30 with
  | none => none
  | some df =>
    if df.length < 7 then none
    else
      let apy_metrics := calculate_apy_volatility df
      let tvl_metrics := calculate_tvl_volatility df
      let liquidity_score := calculate_liquidity_score tvl_metrics.mean
      let stability_score := calculate_stability_score apy_metrics.std tvl_metrics.cv
      let composite_risk := calculate_composite_risk_score liquidity_score stability_score
      some
        { pool_id := pool.id
          calculation_date := now
          apy_volatility_30d := apy_metrics.std
          tvl_volatility_30d := tvl_metrics.cv
          apy_mean_30d := apy_metrics.mean
          tvl_mean_30d := tvl_metrics.mean
          liquidity_score := liquidity_score
          stability_score := stability_score
          composite_risk_score := composite_risk }

/-- The three risk levels produced by `classify_risk` in `get_risk_summary`. -/
inductive RiskLevel where
  | low
  | medium
  | high
deriving DecidableEq

/-- `classify_risk` (nested in `RiskCalculator.get_risk_summary`). -/
noncomputable def classify_risk (score : ℝ) : RiskLevel :=
  if score ≤ RISK_LEVELS.low.2 then .low
  else if score ≤ RISK_LEVELS.medium.2 then .medium
  else .high

/-! ## Upstream client (`src/data_collector.py`, `DeFiLlamaClient`) -/

/-- One point of a pool's historical series as returned by the chart endpoint. -/
structure HistRow where
  date : ℕ
  apy : Option ℚ
  apyBase : Option ℚ
  apyReward : Option ℚ
  tvlUsd : Option ℚ
  il7d : Option ℚ
deriving DecidableEq

/-- Outcome of one HTTP attempt against the chart endpoint: an HTTP 429, a
transport-level failure (`RequestException`), or a parsed payload. -/
inductive ApiResponse where
  | rateLimited
  | transportError
  | ok (rows : List HistRow)
deriving DecidableEq

def max_retries : ℕ := 3

def base_delay : ℚ := 1

/-- `DeFiLlamaClient.get_pool_historical_data`: the network is scripted as a map
from attempt index to response.  Returns the parsed series (or `none`) together
with the list of backoff delays slept, in order. -/
def get_pool_historical_data (responses : ℕ → ApiResponse) (attempt : ℕ)
    (retry_count : ℕ) : Option (List HistRow) × List ℚ :=
  match responses attempt with
  | .rateLimited =>
    if retry_count < max_retries then
      let wait_time := base_delay * 2 ^ retry_count
      let r := get_pool_historical_data responses (attempt + 1) (retry_count + 1)
      (r.1, wait_time :: r.2)
    else (none, [])
  | .transportError =>
    if retry_count < max_retries then
      let wait_time := base_delay * 2 ^ retry_count
      let r := get_pool_historical_data responses (attempt + 1) (retry_count + 1)
      (r.1, wait_time :: r.2)
    else (none, [])
  | .ok rows => if rows = [] then (none, []) else (some rows, [])
termination_by max_retries - retry_count
decreasing_by all_goals omega

/-! ## Collector (`src/data_collector.py`, `DataCollector`) -/

/-- One pool summary from the list-all-pools endpoint (fields the code consumes;
nullable fields are `Option`). -/
structure RawPool where
  pool : Option String
  symbol : String
  chain : String
  project : Option String
  tvlUsd : Option ℚ
  apy : Option ℚ
deriving DecidableEq

/-- The quality-gate predicate of `DataCollector.filter_pools` (a null field fails
every pandas comparison). -/
def passes_filters (r : RawPool) : Bool :=
  (match r.tvlUsd with | some t => decide (MIN_TVL_USD < t) | none => false) &&
  (match r.apy with | some a => decide (MIN_APY < a) && decide (a < MAX_APY) | none => false) &&
  !r.pool.isNone && !r.project.isNone

def tvl_of (r : RawPool) : ℚ := r.tvlUsd.getD 0

/-- `DataCollector.filter_pools`: quality gates first, then `nlargest` by TVL. -/
def filter_pools (pools : List RawPool) : List RawPool :=
  let filtered := pools.filter passes_filters
  (filtered.insertionSort (fun a b => tvl_of b ≤ tvl_of a)).take TOP_POOLS_LIMIT

/-- The database state: the `pools` and `pool_metrics_daily` tables plus the
autoincrement counter for `Pool.id`. -/
structure DB where
  pools : List Pool
  metrics : List PoolMetric
  next_pool_id : ℕ
deriving DecidableEq

/-- The counts dict returned by `DataCollector.store_pools`. -/
structure StoreCounts where
  inserted : ℕ
  updated : ℕ
  skipped : ℕ
deriving DecidableEq

/-- Update (in place) the first pool whose external id matches, as the ORM write
through the queried row does. -/
def updateFirstPool : List Pool → String → RawPool → ℕ → List Pool
  | [], _, _, _ => []
  | p :: rest, pid, row, now =>
    if p.pool_id = pid then
      { p with symbol := row.symbol, chain := row.chain, project := row.project,
               last_updated := now } :: rest
    else p :: updateFirstPool rest pid row now

/-- `DataCollector.store_pools`: upsert each candidate by external pool id. -/
def store_pools (db : DB) (now : ℕ) (rows : List RawPool) : DB × StoreCounts :=
  rows.foldl
    (fun acc row =>
      let db := acc.1
      let counts := acc.2
      match row.pool with
      | none => (db, { counts with skipped := counts.skipped + 1 })
      | some pid =>
        match db.pools.find? (fun p => p.pool_id == pid) with
        | some _ =>
          ({ db with pools := updateFirstPool db.pools pid row now },
           { counts with updated := counts.updated + 1 })
        | none =>
          ({ db with
              pools := db.pools ++
                [{ id := db.next_pool_id, pool_id := pid, symbol := row.symbol,
                   chain := row.chain, project := row.project, last_updated := now }],
              next_pool_id := db.next_pool_id + 1 },
           { counts with inserted := counts.inserted + 1 }))
    (db, ⟨0, 0, 0⟩)

/-- Build a fresh `PoolMetric` from a history point (the insert branch of
`store_historical_metrics`). -/
def new_metric (pid : ℕ) (row : HistRow) : PoolMetric :=
  { pool_id := pid, date := row.date, apy := row.apy, apy_base := row.apyBase,
    apy_reward := row.apyReward, tvl_usd := row.tvlUsd, il7d := row.il7d }

/-- Overwrite the value fields of an existing `PoolMetric` (the update branch of
`store_historical_metrics`). -/
def update_metric (m : PoolMetric) (row : HistRow) : PoolMetric :=
  { m with apy := row.apy, apy_base := row.apyBase, apy_reward := row.apyReward,
           tvl_usd := row.tvlUsd, il7d := row.il7d }

/-- Upsert one history point keyed by `(pool_id, date)`: update the first matching
row in place, else insert a new row. -/
def upsert_metric : List PoolMetric → ℕ → HistRow → List PoolMetric
  | [], pid, row => [new_metric pid row]
  | m :: rest, pid, row =>
    if m.pool_id = pid ∧ m.date = row.date then update_metric m row :: rest
    else m :: upsert_metric rest pid row

/-- `DataCollector.store_historical_metrics`: restrict the series to the trailing
`DAYS_OF_HISTORY` window, then upsert each observation by `(pool, date)`. -/
def store_historical_metrics (db : DB) (now : ℕ) (pool_ext_id : String)
    (df_history : List HistRow) : DB × ℕ :=
  match db.pools.find? (fun p => p.pool_id == pool_ext_id) with
  | none => (db, 0)
  | some pool =>
    let cutoff_date := now - DAYS_OF_HISTORY
    let df_recent := df_history.filter (fun r => decide (cutoff_date ≤ r.date))
    let metrics := df_recent.foldl (fun ms row => upsert_metric ms pool.id row) db.metrics
    ({ db with metrics := metrics }, df_recent.length)

/-- The per-run counters of `DataCollector.collect_historical_data`. -/
structure CollectStats where
  successful : ℕ
  failed : ℕ
  total_metrics : ℕ
deriving DecidableEq

/-- Does the pool already have a metric dated within the trailing 7 days? -/
def has_recent_metric (db : DB) (now : ℕ) (p : Pool) : Bool :=
  db.metrics.any (fun m => m.pool_id == p.id && decide (now - 7 ≤ m.date))

/-- `DataCollector.collect_historical_data`: iterate the known pools (optionally
skipping, in resume mode, pools with a recent metric), fetching and storing each
pool's history.  The per-pool fetch result is abstracted as `hist`. -/
def collect_historical_data (db : DB) (hist : String → Option (List HistRow))
    (now : ℕ) (limit : Option ℕ := none) (resume : Bool := true) : DB × CollectStats :=
  let pools := db.pools
  let pools := match limit with | some l => pools.take l | none => pools
  let pools := if resume then pools.filter (fun p => !has_recent_metric db now p) else pools
  pools.foldl
    (fun acc pool =>
      let db := acc.1
      let stats := acc.2
      match hist pool.pool_id with
      | none => (db, { stats with failed := stats.failed + 1 })
      | some df_history =>
        if df_history.length = 0 then (db, { stats with failed := stats.failed + 1 })
        else
          let r := store_historical_metrics db now pool.pool_id df_history
          if 0 < r.2 then
            (r.1, { stats with successful := stats.successful + 1,
                               total_metrics := stats.total_metrics + r.2 })
          else
            (r.1, { stats with failed := stats.failed + 1,
                               total_metrics := stats.total_metrics + r.2 }))
    (db, ⟨0, 0, 0⟩)

/-- `DataCollector.run_full_collection`: fetch the catalog (scripted as
`all_pools`), stop if it is empty, else filter, store the pool metadata, and
collect history — the latter called with its declared default arguments. -/
def run_full_collection (all_pools : List RawPool) (hist : String → Option (List HistRow))
    (now : ℕ) (db : DB) : DB :=
  if all_pools = [] then db
  else
    let filtered_pools := filter_pools all_pools
    let db1 := (store_pools db now filtered_pools).1
    (collect_historical_data db1 hist now).1

/-- Modelled from the spec: the cold-start pipeline as §4.2 describes it, namely
listPools → filterPools → storePools → collectHistory with `resume = false`.
Written to be compared with `run_full_collection` above, which embeds the code. -/
def run_full_collection_spec (all_pools : List RawPool)
    (hist : String → Option (List HistRow)) (now : ℕ) (db : DB) : DB :=
  if all_pools = [] then db
  else
    let filtered_pools := filter_pools all_pools
    let db1 := (store_pools db now filtered_pools).1
    (collect_historical_data db1 hist now none false).1

/-! ## Observation helpers and concrete instances used by the theorems -/

/-- Number of `pool_metrics_daily` rows with the given `(pool_id, date)` key. -/
def countKey (ms : List PoolMetric) (pid d : ℕ) : ℕ :=
  (ms.filter (fun m => decide (m.pool_id = pid ∧ m.date = d))).length

/-- Concrete 7-day window: one pool, constant APY, a single non-null TVL
observation of one billion dollars. -/
def c10_store : List PoolMetric :=
  [⟨1, 100, some 5, none, none, none, none⟩,
   ⟨1, 101, some 5, none, none, none, none⟩,
   ⟨1, 102, some 5, none, none, none, none⟩,
   ⟨1, 103, some 5, none, none, none, none⟩,
   ⟨1, 104, some 5, none, none, none, none⟩,
   ⟨1, 105, some 5, none, none, none, none⟩,
   ⟨1, 106, some 5, none, none, some 1000000000, none⟩]

def c10_pool : Pool := ⟨1, "pool-a", "USDC", "Ethereum", some "aave", 0⟩

def c4_db : DB := ⟨[⟨1, "pool-b", "DAI", "Ethereum", some "curve", 0⟩], [], 2⟩

def c4_row : HistRow := ⟨50, some 2, some 1, some 1, some 500000, none⟩

/-- Initial database for the C2 instance: one known pool that already has a
metric dated within the last 7 days. -/
def c2_db : DB := ⟨[⟨1, "pool-c", "ETH", "Ethereum", some "lido", 0⟩],
  [⟨1, 100, some 5, none, none, some 7, none⟩], 2⟩

/-- Scripted history endpoint for the C2 instance: every pool reports one fresh
observation. -/
def c2_hist : String → Option (List HistRow) :=
  fun _ => some [⟨95, some 3, none, none, some 9, none⟩]

/-- A catalog entry that fails the quality gates (null fields), making the
catalog non-empty without touching the pools table. -/
def c2_raw : RawPool := ⟨none, "X", "Ethereum", none, none, none⟩

/-! ## Helper lemmas -/

lemma npclip_of_le {x lo hi : ℝ} (h0 : lo ≤ x) (h1 : x ≤ hi) : npclip x lo hi = x := by
  rw [npclip, max_eq_left h0, min_eq_left h1]

lemma npclip_nonneg {x hi : ℝ} (h : 0 ≤ hi) : 0 ≤ npclip x 0 hi :=
  le_min (le_max_right x 0) h

lemma npclip_le_hi (x lo hi : ℝ) : npclip x lo hi ≤ hi := min_le_right _ _

lemma logb_ten_pow (n : ℕ) : Real.logb 10 ((10 : ℝ) ^ n) = n := by
  rw [Real.logb_pow, Real.logb_self_eq_one (by norm_num), mul_one]

/-! ## Claim theorems -/

/-- C3: for all liquidity and stability scores in [0,100], the composite risk score
equals (100 − stability) × (0.3 + 0.3) + (100 − liquidity) × 0.4 under the default
weights (the clamp to [0,100] never bites on this range), and in particular the
composite of liquidity 70 and stability 80 is 24. -/
theorem composite_risk_matches_weighted_formula (l s : ℝ)
    (hl0 : 0 ≤ l) (hl1 : l ≤ 100) (hs0 : 0 ≤ s) (hs1 : s ≤ 100) :
    calculate_composite_risk_score l s = (100 - s) * (0.3 + 0.3) + (100 - l) * 0.4 ∧
    calculate_composite_risk_score 70 80 = 24 := by
  have key : ∀ a b : ℝ, 0 ≤ a → a ≤ 100 → 0 ≤ b → b ≤ 100 →
      calculate_composite_risk_score a b = (100 - b) * (0.3 + 0.3) + (100 - a) * 0.4 := by
    intro a b ha0 ha1 hb0 hb1
    simp only [calculate_composite_risk_score, RISK_WEIGHTS]
    rw [npclip_of_le (by nlinarith) (by nlinarith)]
  refine ⟨key l s hl0 hl1 hs0 hs1, ?_⟩
  rw [key 70 80 (by norm_num) (by norm_num) (by norm_num) (by norm_num)]
  norm_num

/-- C3 witness: the formula and the documented example, instantiated at
liquidity 70 and stability 80. -/
theorem composite_risk_matches_weighted_formula_witness :
    calculate_composite_risk_score 70 80 = (100 - 80) * (0.3 + 0.3) + (100 - 70) * 0.4 ∧
    calculate_composite_risk_score 70 80 = 24 :=
  composite_risk_matches_weighted_formula 70 80 (by norm_num) (by norm_num)
    (by norm_num) (by norm_num)

/-- C7: for all nonnegative APY standard deviation and TVL coefficient of variation,
the stability score equals 0.6 × max(0, 100 − 2·apyStd) + 0.4 × max(0, 100 − tvlCv)
(the clamp to [0,100] never bites on this range); in particular
stabilityScore(0,0) = 100 and stabilityScore(50,0) = 40. -/
theorem stability_score_matches_formula (a c : ℝ) (ha : 0 ≤ a) (hc : 0 ≤ c) :
    calculate_stability_score a c = 0.6 * max 0 (100 - 2 * a) + 0.4 * max 0 (100 - c) ∧
    calculate_stability_score 0 0 = 100 ∧ calculate_stability_score 50 0 = 40 := by
  have key : ∀ x y : ℝ, 0 ≤ x → 0 ≤ y →
      calculate_stability_score x y = 0.6 * max 0 (100 - 2 * x) + 0.4 * max 0 (100 - y) := by
    intro x y hx hy
    simp only [calculate_stability_score]
    have hx1 : max 0 (100 - x * 2) ≤ 100 := max_le (by norm_num) (by linarith)
    have hy1 : max 0 (100 - y) ≤ 100 := max_le (by norm_num) (by linarith)
    have hx0 : 0 ≤ max 0 (100 - x * 2) := le_max_left _ _
    have hy0 : 0 ≤ max 0 (100 - y) := le_max_left _ _
    rw [npclip_of_le (by nlinarith) (by nlinarith), mul_comm x 2]
    ring
  refine ⟨key a c ha hc, ?_, ?_⟩
  · rw [key 0 0 le_rfl le_rfl]
    norm_num
  · rw [key 50 0 (by norm_num) le_rfl]
    norm_num

/-- C7 witness: the formula instantiated at apyStd = 50, tvlCv = 0, together with
the two anchor values. -/
theorem stability_score_matches_formula_witness :
    calculate_stability_score 50 0 = 0.6 * max 0 (100 - 2 * 50) + 0.4 * max 0 (100 - 0) ∧
    calculate_stability_score 0 0 = 100 ∧ calculate_stability_score 50 0 = 40 :=
  stability_score_matches_formula 50 0 (by norm_num) (by norm_num)

/-- C6: risk-level classification is total — every score maps to one of the three
levels — and on [0,100] the bands are Low for score ≤ 30, Medium for
30 < score ≤ 60, High for 60 < score, boundaries belonging to the lower band. -/
theorem classify_risk_partition (s : ℝ) :
    (classify_risk s = .low ∨ classify_risk s = .medium ∨ classify_risk s = .high) ∧
    (s ≤ 30 → classify_risk s = .low) ∧
    (30 < s → s ≤ 60 → classify_risk s = .medium) ∧
    (60 < s → classify_risk s = .high) := by
  have hdef : classify_risk s =
      (if s ≤ 30 then RiskLevel.low else if s ≤ 60 then RiskLevel.medium
       else RiskLevel.high) := rfl
  rw [hdef]
  split_ifs with h1 h2
  · exact ⟨Or.inl rfl, fun _ => rfl, fun h _ => absurd h (not_lt.mpr h1),
      fun h => absurd h (not_lt.mpr (le_trans h1 (by norm_num)))⟩
  · exact ⟨Or.inr (Or.inl rfl), fun h => absurd h h1, fun _ _ => rfl,
      fun h => absurd h (not_lt.mpr h2)⟩
  · exact ⟨Or.inr (Or.inr rfl), fun h => absurd h h1, fun _ h => absurd h h2,
      fun _ => rfl⟩

/-- C6 witness: the boundary scores 30 and 60 fall in the lower bands, and 100 is
High. -/
theorem classify_risk_partition_witness :
    classify_risk 30 = .low ∧ classify_risk 60 = .medium ∧ classify_risk 100 = .high :=
  ⟨(classify_risk_partition 30).2.1 (by norm_num),
   (classify_risk_partition 60).2.2.1 (by norm_num) (by norm_num),
   (classify_risk_partition 100).2.2.2 (by norm_num)⟩

/-- C1 counterexample: at mean TVL $100,000 the liquidity score the code computes
is 20, which is 10 away from the claimed ≈30 — far outside rounding tolerance. -/
theorem liquidity_score_100k_is_20_not_30 :
    calculate_liquidity_score 100000 = 20 ∧ |calculate_liquidity_score 100000 - 30| = 10 := by
  have h5 : ((10 : ℝ) ^ (5 : ℕ)) = 100000 := by norm_num
  have : calculate_liquidity_score 100000 = 20 := by
    simp only [calculate_liquidity_score]
    rw [if_neg (by norm_num), max_eq_left (by norm_num), ← h5, logb_ten_pow]
    rw [npclip_of_le (by norm_num) (by norm_num)]
    norm_num
  refine ⟨this, ?_⟩
  rw [this]
  norm_num

/-- C1 amended: the liquidity score at mean TVLs of $100k, $1M, $10M, $100M and
$1B is exactly 20, 40, 60, 80 and 100 respectively (the code's log-scale maps
log₁₀ TVL over [4,9] linearly onto [0,100]; the ≈30/50/70/90 figures in the code
comment do not match the formula). -/
theorem liquidity_score_anchor_values :
    calculate_liquidity_score 100000 = 20 ∧
    calculate_liquidity_score 1000000 = 40 ∧
    calculate_liquidity_score 10000000 = 60 ∧
    calculate_liquidity_score 100000000 = 80 ∧
    calculate_liquidity_score 1000000000 = 100 := by
  have key : ∀ n : ℕ, 4 ≤ n → n ≤ 9 →
      calculate_liquidity_score ((10 : ℝ) ^ n) = ((n : ℝ) - 4) / 5 * 100 := by
    intro n h4 h9
    have hpos : (0 : ℝ) < (10 : ℝ) ^ n := by positivity
    have hge : (10 : ℝ) ^ (4 : ℕ) ≤ (10 : ℝ) ^ n :=
      pow_le_pow_right₀ (by norm_num) h4
    simp only [calculate_liquidity_score]
    rw [if_neg (by push_neg; exact hpos), max_eq_left (by norm_num at hge ⊢; linarith),
      logb_ten_pow]
    have hn4 : (4 : ℝ) ≤ (n : ℝ) := by exact_mod_cast h4
    have hn9 : (n : ℝ) ≤ 9 := by exact_mod_cast h9
    rw [npclip_of_le (by nlinarith) (by nlinarith)]
    norm_num
  have e5 := key 5 (by norm_num) (by norm_num)
  have e6 := key 6 (by norm_num) (by norm_num)
  have e7 := key 7 (by norm_num) (by norm_num)
  have e8 := key 8 (by norm_num) (by norm_num)
  have e9 := key 9 (by norm_num) (by norm_num)
  norm_num at e5 e6 e7 e8 e9
  exact ⟨e5, e6, e7, e8, e9⟩

/-- C8: the liquidity score is monotonically non-decreasing in mean TVL, always
lies in [0,100], and is 0 for every TVL ≤ 0. -/
theorem liquidity_score_monotone_bounded_zero :
    (∀ a b : ℝ, a ≤ b → calculate_liquidity_score a ≤ calculate_liquidity_score b) ∧
    (∀ x : ℝ, 0 ≤ calculate_liquidity_score x ∧ calculate_liquidity_score x ≤ 100) ∧
    (∀ x : ℝ, x ≤ 0 → calculate_liquidity_score x = 0) := by
  have hz : ∀ x : ℝ, x ≤ 0 → calculate_liquidity_score x = 0 := by
    intro x hx
    simp only [calculate_liquidity_score]
    rw [if_pos hx]
  have hb : ∀ x : ℝ, 0 ≤ calculate_liquidity_score x ∧ calculate_liquidity_score x ≤ 100 := by
    intro x
    simp only [calculate_liquidity_score]
    split_ifs with hx
    · norm_num
    · exact ⟨npclip_nonneg (by norm_num), npclip_le_hi _ _ _⟩
  refine ⟨?_, hb, hz⟩
  intro a b hab
  by_cases ha : a ≤ 0
  · rw [hz a ha]
    exact (hb b).1
  · have hbpos : ¬b ≤ 0 := fun hb0 => ha (hab.trans hb0)
    simp only [calculate_liquidity_score]
    rw [if_neg ha, if_neg hbpos]
    have hlog : Real.logb 10 (max a 10000) ≤ Real.logb 10 (max b 10000) :=
      Real.logb_le_logb_of_le (by norm_num)
        (lt_of_lt_of_le (by norm_num : (0 : ℝ) < 10000) (le_max_right a 10000))
        (max_le_max hab le_rfl)
    exact min_le_min (max_le_max (by linarith) le_rfl) le_rfl

/-- C8 witness: monotonicity, bounds and the zero case at concrete inputs. -/
theorem liquidity_score_monotone_bounded_zero_witness :
    calculate_liquidity_score 3 ≤ calculate_liquidity_score 5 ∧
    (0 ≤ calculate_liquidity_score 123456 ∧ calculate_liquidity_score 123456 ≤ 100) ∧
    calculate_liquidity_score (-7) = 0 :=
  ⟨liquidity_score_monotone_bounded_zero.1 3 5 (by norm_num),
   liquidity_score_monotone_bounded_zero.2.1 123456,
   liquidity_score_monotone_bounded_zero.2.2 (-7) (by norm_num)⟩

lemma gphd_fail_step (responses : ℕ → ApiResponse) (attempt rc : ℕ)
    (hfail : responses attempt = .rateLimited ∨ responses attempt = .transportError)
    (hrc : rc < max_retries) :
    get_pool_historical_data responses attempt rc =
      ((get_pool_historical_data responses (attempt + 1) (rc + 1)).1,
       base_delay * 2 ^ rc :: (get_pool_historical_data responses (attempt + 1) (rc + 1)).2) := by
  rcases hfail with h | h <;> · rw [get_pool_historical_data.eq_def, h]
                                simp [hrc]

lemma gphd_fail_stop (responses : ℕ → ApiResponse) (attempt rc : ℕ)
    (hfail : responses attempt = .rateLimited ∨ responses attempt = .transportError)
    (hrc : ¬rc < max_retries) :
    get_pool_historical_data responses attempt rc = (none, []) := by
  rcases hfail with h | h <;> · rw [get_pool_historical_data.eq_def, h]
                                simp [hrc]

/-- C9: when the first four attempts for a pool all fail (rate-limited or
transport error), the client retries exactly 3 times with backoff delays 1, 2 and
4 time units, then gives up and returns the empty/Not-Found result `none` instead
of raising — independently of any response after the fourth attempt. -/
theorem retry_backoff_policy (responses : ℕ → ApiResponse)
    (h : ∀ i, i < 4 →
      responses i = .rateLimited ∨ responses i = .transportError) :
    get_pool_historical_data responses 0 0 = (none, [1, 2, 4]) := by
  have s0 := gphd_fail_step responses 0 0 (h 0 (by norm_num)) (by decide)
  have s1 := gphd_fail_step responses 1 1 (h 1 (by norm_num)) (by decide)
  have s2 := gphd_fail_step responses 2 2 (h 2 (by norm_num)) (by decide)
  have s3 := gphd_fail_stop responses 3 3 (h 3 (by norm_num)) (by decide)
  rw [s0, s1, s2, s3]
  norm_num [base_delay]

/-- C9 witness: a network that always answers HTTP 429 yields `none` after
backoff delays 1, 2, 4. -/
theorem retry_backoff_policy_witness :
    get_pool_historical_data (fun _ => .rateLimited) 0 0 = (none, [1, 2, 4]) :=
  retry_backoff_policy (fun _ => .rateLimited) (fun _ _ => Or.inl rfl)

/-- C5: loading a pool's 30-day metric window — and hence scoring the pool —
returns the insufficient-data sentinel `none` exactly when fewer than 7
observations of that pool fall in the window. -/
theorem insufficient_data_iff_fewer_than_seven (store : List PoolMetric) (pool : Pool)
    (now : ℕ) :
    (get_pool_metrics_df store pool.id now 30 = none ↔
      (store.filter (fun m => decide (m.pool_id = pool.id ∧ now - 30 ≤ m.date))).length < 7) ∧
    (calculate_risk_for_pool store pool now = none ↔
      (store.filter (fun m => decide (m.pool_id = pool.id ∧ now - 30 ≤ m.date))).length < 7) := by
  by_cases h7 :
      (store.filter (fun m => decide (m.pool_id = pool.id ∧ now - 30 ≤ m.date))).length < 7
  · have hdf : get_pool_metrics_df store pool.id now 30 = none := by
      simp only [get_pool_metrics_df]
      rw [if_pos (by rw [List.length_insertionSort]; exact h7)]
    refine ⟨iff_of_true hdf h7, ?_⟩
    simp only [calculate_risk_for_pool, hdf]
    exact iff_of_true trivial h7
  · have hdf : get_pool_metrics_df store pool.id now 30 =
        some (((store.filter
            (fun m => decide (m.pool_id = pool.id ∧ now - 30 ≤ m.date))).insertionSort
            (fun a b => a.date ≤ b.date)).map (fun m => ⟨m.date, m.apy, m.tvl_usd⟩)) := by
      simp only [get_pool_metrics_df]
      rw [if_neg (by rw [List.length_insertionSort]; exact h7)]
    refine ⟨iff_of_false (by simp [hdf]) h7, ?_⟩
    simp only [calculate_risk_for_pool, hdf]
    rw [if_neg (by rw [List.length_map, List.length_insertionSort]; exact h7)]
    exact iff_of_false (by simp) h7

/-- C10: with fewer than 2 non-null TVL observations the TVL volatility is
reported as mean 0 and cv 0, and consequently a pool whose 30-day window has at
least 7 rows but at most one non-null TVL value is scored with liquidity score 0,
regardless of the magnitude of the one observed TVL. -/
theorem degenerate_tvl_gives_zero_liquidity (store : List PoolMetric) (pool : Pool)
    (now : ℕ)
    (h7 : 7 ≤ (store.filter (fun m => decide (m.pool_id = pool.id ∧ now - 30 ≤ m.date))).length)
    (h2 : (((store.filter
        (fun m => decide (m.pool_id = pool.id ∧ now - 30 ≤ m.date))).filterMap
        (fun m => m.tvl_usd)).length) < 2) :
    (∀ df : List DfRow, (df.filterMap (fun r => r.tvl_usd)).length < 2 →
        calculate_tvl_volatility df = ⟨0, 0⟩) ∧
    ∃ r, calculate_risk_for_pool store pool now = some r ∧
      r.tvl_mean_30d = 0 ∧ r.liquidity_score = 0 := by
  have hvol : ∀ df : List DfRow, (df.filterMap (fun r => r.tvl_usd)).length < 2 →
      calculate_tvl_volatility df = ⟨0, 0⟩ := by
    intro df h
    simp only [calculate_tvl_volatility]
    rw [if_pos h]
  refine ⟨hvol, ?_⟩
  have h7' : ¬(store.filter
      (fun m => decide (m.pool_id = pool.id ∧ now - 30 ≤ m.date))).length < 7 :=
    not_lt.mpr h7
  have hdf : get_pool_metrics_df store pool.id now 30 =
      some (((store.filter
          (fun m => decide (m.pool_id = pool.id ∧ now - 30 ≤ m.date))).insertionSort
          (fun a b => a.date ≤ b.date)).map (fun m => ⟨m.date, m.apy, m.tvl_usd⟩)) := by
    simp only [get_pool_metrics_df]
    rw [if_neg (by rw [List.length_insertionSort]; exact h7')]
  have hperm : List.Perm ((store.filter
      (fun m => decide (m.pool_id = pool.id ∧ now - 30 ≤ m.date))).insertionSort
      (fun a b => a.date ≤ b.date))
      (store.filter (fun m => decide (m.pool_id = pool.id ∧ now - 30 ≤ m.date))) :=
    List.perm_insertionSort _ _
  have h2' : (((((store.filter
      (fun m => decide (m.pool_id = pool.id ∧ now - 30 ≤ m.date))).insertionSort
      (fun a b => a.date ≤ b.date)).map
      (fun m => (⟨m.date, m.apy, m.tvl_usd⟩ : DfRow))).filterMap
      (fun r => r.tvl_usd)).length) < 2 := by
    rw [List.filterMap_map]
    calc ((((store.filter
        (fun m => decide (m.pool_id = pool.id ∧ now - 30 ≤ m.date))).insertionSort
        (fun a b => a.date ≤ b.date)).filterMap
        ((fun r : DfRow => r.tvl_usd) ∘ (fun m => ⟨m.date, m.apy, m.tvl_usd⟩))).length)
        = (((store.filter
            (fun m => decide (m.pool_id = pool.id ∧ now - 30 ≤ m.date))).filterMap
            (fun m => m.tvl_usd)).length) :=
          (hperm.filterMap _).length_eq
      _ < 2 := h2
  have htvl := hvol _ h2'
  simp only [calculate_risk_for_pool, hdf]
  rw [if_neg (by rw [List.length_map, List.length_insertionSort]; exact h7')]
  refine ⟨_, rfl, ?_, ?_⟩
  · show (calculate_tvl_volatility _).mean = 0
    rw [htvl]
  · show calculate_liquidity_score (calculate_tvl_volatility _).mean = 0
    rw [htvl]
    show calculate_liquidity_score 0 = 0
    simp [calculate_liquidity_score]

/-- C10 witness: the single observed TVL is $1B, yet the pool's liquidity score is
0 because the TVL mean is reported as 0. -/
theorem degenerate_tvl_gives_zero_liquidity_witness :
    ∃ r, calculate_risk_for_pool c10_store c10_pool 106 = some r ∧
      r.tvl_mean_30d = 0 ∧ r.liquidity_score = 0 :=
  (degenerate_tvl_gives_zero_liquidity c10_store c10_pool 106
    (by decide) (by decide)).2

/-! ## C4: idempotent upsert of (pool, date)-keyed metrics -/

lemma countKey_cons (x : PoolMetric) (xs : List PoolMetric) (pid d : ℕ) :
    countKey (x :: xs) pid d =
      (if x.pool_id = pid ∧ x.date = d then 1 else 0) + countKey xs pid d := by
  by_cases h : x.pool_id = pid ∧ x.date = d
  · simp [countKey, List.filter_cons, h, Nat.add_comm]
  · simp [countKey, List.filter_cons, h]

lemma countKey_upsert (ms : List PoolMetric) (pid : ℕ) (row : HistRow)
    (h : countKey ms pid row.date ≤ 1) :
    countKey (upsert_metric ms pid row) pid row.date = 1 := by
  induction ms with
  | nil => simp [upsert_metric, countKey, new_metric]
  | cons m rest ih =>
    by_cases hm : m.pool_id = pid ∧ m.date = row.date
    · rw [upsert_metric, if_pos hm, countKey_cons,
        if_pos (by simp [update_metric, hm.1, hm.2])]
      rw [countKey_cons, if_pos hm] at h
      omega
    · rw [upsert_metric, if_neg hm, countKey_cons, if_neg hm]
      rw [countKey_cons, if_neg hm] at h
      simpa using ih (by simpa using h)

lemma upsert_length_of_key_present (ms : List PoolMetric) (pid : ℕ) (row : HistRow)
    (h : 1 ≤ countKey ms pid row.date) :
    (upsert_metric ms pid row).length = ms.length := by
  induction ms with
  | nil => simp [countKey] at h
  | cons m rest ih =>
    by_cases hm : m.pool_id = pid ∧ m.date = row.date
    · rw [upsert_metric, if_pos hm]
      simp
    · rw [upsert_metric, if_neg hm]
      rw [countKey_cons, if_neg hm] at h
      simp only [List.length_cons]
      rw [ih (by simpa using h)]

lemma store_historical_metrics_pools (db : DB) (now : ℕ) (ext : String)
    (df : List HistRow) :
    (store_historical_metrics db now ext df).1.pools = db.pools := by
  simp only [store_historical_metrics]
  cases hfind : db.pools.find? (fun p => p.pool_id == ext) <;> simp

/-- C4: upserting one in-window observation twice by `(pool, date)` is idempotent:
after the first ingestion exactly one row carries that key, and the second
ingestion updates that row in place — the key still appears exactly once and the
table's row count does not change. -/
theorem store_metrics_idempotent_on_key (db : DB) (now : ℕ) (ext : String)
    (pool : Pool) (row : HistRow)
    (hfind : db.pools.find? (fun p => p.pool_id == ext) = some pool)
    (hdate : now - DAYS_OF_HISTORY ≤ row.date)
    (hkey : countKey db.metrics pool.id row.date ≤ 1) :
    countKey (store_historical_metrics db now ext [row]).1.metrics pool.id row.date = 1 ∧
    countKey (store_historical_metrics
        (store_historical_metrics db now ext [row]).1 now ext [row]).1.metrics
        pool.id row.date = 1 ∧
    (store_historical_metrics
        (store_historical_metrics db now ext [row]).1 now ext [row]).1.metrics.length =
      (store_historical_metrics db now ext [row]).1.metrics.length := by
  have hred : ∀ d : DB, d.pools.find? (fun p => p.pool_id == ext) = some pool →
      (store_historical_metrics d now ext [row]).1.metrics =
        upsert_metric d.metrics pool.id row := by
    intro d hf
    simp only [store_historical_metrics, hf]
    rw [show List.filter (fun r => decide (now - DAYS_OF_HISTORY ≤ r.date)) [row] = [row]
      from by rw [List.filter_cons, if_pos (by exact decide_eq_true hdate), List.filter_nil]]
    rfl
  have h1 := hred db hfind
  have hfind1 : (store_historical_metrics db now ext [row]).1.pools.find?
      (fun p => p.pool_id == ext) = some pool := by
    rw [store_historical_metrics_pools]
    exact hfind
  have h2 := hred _ hfind1
  have c1 : countKey (store_historical_metrics db now ext [row]).1.metrics
      pool.id row.date = 1 := by
    rw [h1]
    exact countKey_upsert _ _ _ hkey
  refine ⟨c1, ?_, ?_⟩
  · rw [h2]
    exact countKey_upsert _ _ _ (le_of_eq c1)
  · rw [h2, h1]
    exact upsert_length_of_key_present _ _ _ (by rw [← h1, c1])

/-- C4 witness: ingesting the same observation twice into an initially empty
metrics table leaves exactly one row for its key, and the second ingestion does
not grow the table. -/
theorem store_metrics_idempotent_on_key_witness :
    countKey (store_historical_metrics c4_db 100 "pool-b" [c4_row]).1.metrics 1 50 = 1 ∧
    countKey (store_historical_metrics
        (store_historical_metrics c4_db 100 "pool-b" [c4_row]).1 100 "pool-b"
        [c4_row]).1.metrics 1 50 = 1 ∧
    (store_historical_metrics
        (store_historical_metrics c4_db 100 "pool-b" [c4_row]).1 100 "pool-b"
        [c4_row]).1.metrics.length =
      (store_historical_metrics c4_db 100 "pool-b" [c4_row]).1.metrics.length :=
  store_metrics_idempotent_on_key c4_db 100 "pool-b"
    ⟨1, "pool-b", "DAI", "Ethereum", some "curve", 0⟩ c4_row
    (by decide) (by decide) (by decide)

/-! ## C2: the full-collection pipeline -/

/-- C2 (amended): the cold-start pipeline composes, in data-flow order,
listPools → filterPools → storePools → collectHistory, but the history pass runs
with the default `resume = true`; when listPools yields an empty catalog the run
stops at once with the store unchanged. -/
theorem run_full_collection_composition (all_pools : List RawPool)
    (hist : String → Option (List HistRow)) (now : ℕ) (db : DB) :
    (all_pools ≠ [] →
      run_full_collection all_pools hist now db =
        (collect_historical_data
          (store_pools db now (filter_pools all_pools)).1 hist now none true).1) ∧
    (all_pools = [] → run_full_collection all_pools hist now db = db) := by
  constructor
  · intro h
    simp only [run_full_collection]
    rw [if_neg h]
  · intro h
    simp only [run_full_collection]
    rw [if_pos h]

/-- C2 counterexample: on a concrete run, `run_full_collection` does not behave
as the claimed cold-start pipeline with `resume = false` — resume mode skips the
pool with a recent metric, so no new row is stored, while the claimed pipeline
stores one. -/
theorem run_full_collection_not_resume_false :
    run_full_collection [c2_raw] c2_hist 100 c2_db ≠
      run_full_collection_spec [c2_raw] c2_hist 100 c2_db := by
  decide

/-- C2 witness: the composition equation on a concrete non-empty catalog, and the
empty-catalog early exit leaving the store unchanged. -/
theorem run_full_collection_composition_witness :
    run_full_collection [c2_raw] c2_hist 100 c2_db =
      (collect_historical_data
        (store_pools c2_db 100 (filter_pools [c2_raw])).1 c2_hist 100 none true).1 ∧
    run_full_collection [] c2_hist 100 c2_db = c2_db :=
  ⟨(run_full_collection_composition [c2_raw] c2_hist 100 c2_db).1 (by decide),
   (run_full_collection_composition [] c2_hist 100 c2_db).2 rfl⟩

end DefiRisk
